import Mathlib

/-!
Shallow embedding of the Android Vulkan WSI swapchain layer
(`vulkan/libvulkan/swapchain.cpp`): transform codec, present-timing store,
swapchain create/acquire/present/destroy state machines, and the
worst-present-result merge.  External collaborators (the native window, the
GPU driver, the host allocator) are modelled as oracles supplying the return
values of their calls; the side effects the layer performs on them are
recorded as an explicit event trace.
-/

namespace SwapchainSpec

/-- GPU-API result codes used by the swapchain layer (the subset of `VkResult`
values that appear in `swapchain.cpp`). -/
inductive VkResult where
  | SUCCESS
  | SUBOPTIMAL_KHR
  | INCOMPLETE
  | ERROR_OUT_OF_HOST_MEMORY
  | ERROR_OUT_OF_DEVICE_MEMORY
  | ERROR_DEVICE_LOST
  | ERROR_SURFACE_LOST_KHR
  | ERROR_OUT_OF_DATE_KHR
  | ERROR_INITIALIZATION_FAILED
  | ERROR_NATIVE_WINDOW_IN_USE_KHR
deriving DecidableEq, Repr, Fintype

/-- GPU-API surface transform enumerators (`VkSurfaceTransformFlagBitsKHR`),
restricted to the bits named in the source. -/
inductive VkSurfaceTransform where
  | IDENTITY
  | ROTATE_90
  | ROTATE_180
  | ROTATE_270
  | HORIZONTAL_MIRROR
  | HORIZONTAL_MIRROR_ROTATE_90
  | HORIZONTAL_MIRROR_ROTATE_180
  | HORIZONTAL_MIRROR_ROTATE_270
  | INHERIT
deriving DecidableEq, Repr, Fintype

/-- Native window transform bit for a horizontal flip (`0x1`, per the
source comments in `TranslateNativeToVulkanTransform`). -/
def NATIVE_WINDOW_TRANSFORM_FLIP_H : Int := 1

/-- Native window transform bit for a vertical flip (`0x2`). -/
def NATIVE_WINDOW_TRANSFORM_FLIP_V : Int := 2

/-- Native window transform bit for a 90-degree clockwise rotation (`0x4`). -/
def NATIVE_WINDOW_TRANSFORM_ROT_90 : Int := 4

/-- Native 180-degree rotation: `FLIP_H | FLIP_V` (per source comment). -/
def NATIVE_WINDOW_TRANSFORM_ROT_180 : Int := 3

/-- Native 270-degree rotation: `FLIP_H | FLIP_V | ROT_90` (per source
comment). -/
def NATIVE_WINDOW_TRANSFORM_ROT_270 : Int := 7

/-- Native "inverse display" transform bit (`0x8` in the ANativeWindow
transform enum). -/
def NATIVE_WINDOW_TRANSFORM_INVERSE_DISPLAY : Int := 8

/-- `TranslateNativeToVulkanTransform` (swapchain.cpp lines 48-81): the C
switch over the native transform value, written as the equivalent chain of
equality tests.  All unlisted values (including `INVERSE_DISPLAY`) fall
through to the default case, identity. -/
def TranslateNativeToVulkanTransform (native : Int) : VkSurfaceTransform :=
  if native = 0 then VkSurfaceTransform.IDENTITY
  else if native = NATIVE_WINDOW_TRANSFORM_ROT_180 then VkSurfaceTransform.ROTATE_180
  else if native = NATIVE_WINDOW_TRANSFORM_ROT_90 then VkSurfaceTransform.ROTATE_90
  else if native = NATIVE_WINDOW_TRANSFORM_ROT_270 then VkSurfaceTransform.ROTATE_270
  else VkSurfaceTransform.IDENTITY

/-- `InvertTransformToNative` (swapchain.cpp lines 83-107): returns the
native rotation the compositor should apply so that it cancels the supplied
GPU-API rotation; identity, inherit and all unhandled bits map to 0. -/
def InvertTransformToNative (transform : VkSurfaceTransform) : Int :=
  match transform with
  | VkSurfaceTransform.ROTATE_90 => NATIVE_WINDOW_TRANSFORM_ROT_270
  | VkSurfaceTransform.ROTATE_180 => NATIVE_WINDOW_TRANSFORM_ROT_180
  | VkSurfaceTransform.ROTATE_270 => NATIVE_WINDOW_TRANSFORM_ROT_90
  | _ => 0

/-- Clockwise rotation angle, in degrees, denoted by a supported GPU-API
transform (identity and inherit denote no rotation; mirrors are outside the
supported set and are assigned 0 here, they never reach the codec). -/
def vkTransformDegrees (t : VkSurfaceTransform) : Nat :=
  match t with
  | VkSurfaceTransform.ROTATE_90 => 90
  | VkSurfaceTransform.ROTATE_180 => 180
  | VkSurfaceTransform.ROTATE_270 => 270
  | _ => 0

/-- Clockwise rotation angle, in degrees, denoted by a pure-rotation native
transform value (0, ROT_90 = 4, ROT_180 = 3, ROT_270 = 7); other values do
not denote pure rotations and are assigned 0. -/
def nativeTransformDegrees (n : Int) : Nat :=
  if n = NATIVE_WINDOW_TRANSFORM_ROT_90 then 90
  else if n = NATIVE_WINDOW_TRANSFORM_ROT_180 then 180
  else if n = NATIVE_WINDOW_TRANSFORM_ROT_270 then 270
  else 0

/-- The supported rotation set of the codec:
identity, rot90, rot180, rot270, inherit. -/
def supportedTransforms : List VkSurfaceTransform :=
  [VkSurfaceTransform.IDENTITY, VkSurfaceTransform.ROTATE_90,
   VkSurfaceTransform.ROTATE_180, VkSurfaceTransform.ROTATE_270,
   VkSurfaceTransform.INHERIT]

/-! ## Present-timing records (`TimingInfo`, swapchain.cpp lines 109-170) -/

/-- `2^64`: machine integers in the timing code are unsigned 64-bit. -/
def U64 : Nat := 2 ^ 64

/-- Unsigned 64-bit subtraction `a - b` with wraparound, on values `< U64`. -/
def u64sub (a b : Nat) : Nat := (a + U64 - b % U64) % U64

/-- `VkPastPresentationTimingGOOGLE`: the value block reported to the
application (`vals_` in the source). -/
structure PastPresentationTiming where
  presentID : Nat
  desiredPresentTime : Nat
  actualPresentTime : Nat
  earliestPresentTime : Nat
  presentMargin : Nat
deriving DecidableEq, Repr

/-- `TimingInfo` (swapchain.cpp lines 109-160): the public value block plus
the four raw compositor timestamps. -/
structure TimingInfo where
  vals : PastPresentationTiming
  timestamp_desired_present_time : Nat
  timestamp_actual_present_time : Nat
  timestamp_render_complete_time : Nat
  timestamp_composition_latch_time : Nat
deriving DecidableEq, Repr

/-- `TimingInfo(const VkPresentTimeGOOGLE*)`: a fresh record carries the
application-supplied presentID and desiredPresentTime; all other fields 0. -/
def TimingInfo.fresh (presentID desiredPresentTime : Nat) : TimingInfo :=
  { vals := { presentID := presentID, desiredPresentTime := desiredPresentTime,
              actualPresentTime := 0, earliestPresentTime := 0, presentMargin := 0 },
    timestamp_desired_present_time := 0,
    timestamp_actual_present_time := 0,
    timestamp_render_complete_time := 0,
    timestamp_composition_latch_time := 0 }

/-- `TimingInfo::ready()`: all four raw timestamps are non-zero. -/
def TimingInfo.ready (t : TimingInfo) : Bool :=
  t.timestamp_desired_present_time ≠ 0 ∧
  t.timestamp_actual_present_time ≠ 0 ∧
  t.timestamp_render_complete_time ≠ 0 ∧
  t.timestamp_composition_latch_time ≠ 0

/-- The `while` loop body of `TimingInfo::calculate` (swapchain.cpp lines
143-147), with an explicit fuel argument standing for the loop's (absent)
termination bound: while `margin > rdur` and `early_time - rdur >
latch_time` (uint64 arithmetic), subtract `rdur` from both.  When
`rdur > 0` each iteration strictly decreases `margin`, so fuel `margin + 1`
is never exhausted; when `rdur = 0` and the guard holds the C loop does not
terminate, and the fuel cutoff is the only deviation of the model. -/
def calcLoop (rdur latch : Nat) : Nat → Nat → Nat → Nat × Nat
  | 0, early, margin => (early, margin)
  | fuel + 1, early, margin =>
    if margin > rdur ∧ u64sub early rdur > latch then
      calcLoop rdur latch fuel (u64sub early rdur) (u64sub margin rdur)
    else (early, margin)

/-- `TimingInfo::calculate(uint64_t rdur)` (swapchain.cpp lines 129-150):
`actualPresentTime` is the raw actual timestamp; initial margin is
`latch - render_complete` (uint64); the loop credits whole refresh
durations back to `earliestPresentTime` while preserving a margin above
one refresh duration. -/
def TimingInfo.calculate (rdur : Nat) (t : TimingInfo) : TimingInfo :=
  let actual := t.timestamp_actual_present_time
  let margin0 := u64sub t.timestamp_composition_latch_time
      t.timestamp_render_complete_time
  let em := calcLoop rdur t.timestamp_composition_latch_time
      (margin0 + 1) actual margin0
  { t with vals := { t.vals with
      actualPresentTime := actual,
      earliestPresentTime := em.1,
      presentMargin := em.2 } }

/-- `TimingInfo::get_values` copies the public value block. -/
def TimingInfo.get_values (t : TimingInfo) : PastPresentationTiming := t.vals

/-- `MAX_TIMING_INFOS` (swapchain.cpp line 188). -/
def MAX_TIMING_INFOS : Nat := 10

/-- `compare_type` (swapchain.cpp lines 162-170) orders records by
`presentID` alone; this is the key the store is sorted on. -/
def timingLE (a b : TimingInfo) : Prop := a.vals.presentID ≤ b.vals.presentID

/-- Modelled from the spec: `android::SortedVector<TimingInfo>::add`.  The
SortedVector container lives outside this repository; per the spec's Timing
Store operation table ("Insert ordered by `presentID`") and its set
semantics under the comparator (`add` replaces an element that compares
equal), the insert places the new record before the first strictly larger
`presentID` and replaces a record with the same `presentID`. -/
def sortedAdd (t : TimingInfo) : List TimingInfo → List TimingInfo
  | [] => [t]
  | x :: xs =>
    if t.vals.presentID < x.vals.presentID then t :: x :: xs
    else if t.vals.presentID = x.vals.presentID then t :: xs
    else x :: sortedAdd t xs

/-- The timing-enrollment step of `QueuePresentKHR` (swapchain.cpp lines
1228-1234): `timing.add(record)`, then if the size exceeds
`MAX_TIMING_INFOS` remove the record at index 0 (the oldest). -/
def enrollTiming (t : TimingInfo) (store : List TimingInfo) : List TimingInfo :=
  let store1 := sortedAdd t store
  if store1.length > MAX_TIMING_INFOS then store1.drop 1 else store1

/-- The loop of `copy_ready_timings` (swapchain.cpp lines 381-398), with the
source's index mutation made explicit: `i` is the scan index, `numTimings`
the (mutable) scan bound, `limit` the caller's `*count`, `numCopied` and
`acc` the output so far.  Copying a ready record removes it from the store,
decrements both `i` (re-incremented by the `for`) and `numTimings`, and
breaks once `limit` records were copied.  Each step decreases
`numTimings - i`, so fuel `numTimings` suffices; the fuel-exhausted and
bound-reached cases return identically. -/
def copyLoop : Nat → List TimingInfo → Nat → Nat → Nat → Nat →
    List PastPresentationTiming → List TimingInfo × List PastPresentationTiming
  | 0, store, _, _, _, _, acc => (store, acc)
  | fuel + 1, store, i, numTimings, limit, numCopied, acc =>
    if i < numTimings then
      match store.get? i with
      | some ti =>
        if ti.ready then
          let acc1 := acc ++ [ti.get_values]
          let store1 := store.eraseIdx i
          if limit = numCopied + 1 then (store1, acc1)
          else copyLoop fuel store1 i (numTimings - 1) limit (numCopied + 1) acc1
        else copyLoop fuel store (i + 1) numTimings limit numCopied acc
      | none => (store, acc)
    else (store, acc)

/-- `copy_ready_timings` (swapchain.cpp lines 373-400): clamp the scan bound
to `min(*count, store size)`, run the loop, and return the new store, the
copied records, and (as the second component's length) the written-back
count. -/
def copy_ready_timings (store : List TimingInfo) (count : Nat) :
    List TimingInfo × List PastPresentationTiming :=
  let numTimings := if count < store.length then count else store.length
  copyLoop numTimings store 0 numTimings count 0 []

/-! ## Swapchain objects, image slots and the event trace -/

/-- Observable side effects the layer performs against the native window,
the driver and the allocator.  `cancelBuffer` and `queueBuffer` transfer
ownership of the fence they carry to the window; `enableFrameTimestamps`
records whether the window argument was a live pointer (`true`) or null
(`false`). -/
inductive Ev where
  | dequeueBufferCall
  | cancelBuffer (buffer : Nat) (fence : Int)
  | queueBuffer (buffer : Nat) (fence : Int)
  | closeFd (fd : Int)
  | syncWait (fd : Int)
  | destroyImage (image : Nat)
  | enableFrameTimestamps (windowLive : Bool) (enable : Bool)
  | setBuffersTimestamp (ts : Nat)
  | freeSwapchain
deriving DecidableEq, Repr

/-- `Swapchain::Image` (swapchain.cpp lines 216-226): a GPU image handle (or
none), the aliased native buffer (or none), the owned dequeue fence fd
(−1 when absent), and the `dequeued` flag. -/
structure Image where
  image : Option Nat := none
  buffer : Option Nat := none
  dequeue_fence : Int := -1
  dequeued : Bool := false
deriving DecidableEq, Repr

instance : Inhabited Image := ⟨{}⟩

/-- The state of one swapchain together with the one surface fact the
entry points consult: `active` stands for
`surface.swapchain_handle == HandleFromSwapchain(this)`. -/
structure SwapchainState where
  active : Bool
  frame_timestamps_enabled : Bool
  timing : List TimingInfo
  images : List Image
deriving DecidableEq, Repr

/-- `ReleaseSwapchainImage` (swapchain.cpp lines 239-286).  `windowLive`
tells whether the `window` argument was non-null.  For a dequeued slot:
with a caller fence the dequeue fence is closed and the caller fence kept,
otherwise the dequeue fence becomes the fence to pass on; with a live
window the buffer is cancelled back carrying that fence, without one the
fence (if any) is waited on and closed.  Any image is destroyed and the
buffer reference dropped. -/
def ReleaseSwapchainImage (windowLive : Bool) (release_fence : Int)
    (img : Image) : Image × List Ev :=
  let step1 :=
    if img.dequeued then
      let rf := if release_fence ≥ 0 then release_fence else img.dequeue_fence
      let closeEvs := if release_fence ≥ 0 ∧ img.dequeue_fence ≥ 0
        then [Ev.closeFd img.dequeue_fence] else []
      let windowEvs :=
        if windowLive then [Ev.cancelBuffer (img.buffer.getD 0) rf]
        else if rf ≥ 0 then [Ev.syncWait rf, Ev.closeFd rf] else []
      ({ img with dequeue_fence := -1, dequeued := false }, closeEvs ++ windowEvs)
    else (img, [])
  let imageEvs := match step1.1.image with
    | some im => [Ev.destroyImage im]
    | none => []
  ({ step1.1 with image := none, buffer := none }, step1.2 ++ imageEvs)

/-- `OrphanSwapchain` (swapchain.cpp lines 288-297): a no-op unless this
swapchain is still the surface's active one; otherwise release every
non-dequeued slot with no window and no fence, clear the surface
back-pointer (`active := false`) and clear the timing store. -/
def OrphanSwapchain (s : SwapchainState) : SwapchainState × List Ev :=
  if s.active then
    let rel := s.images.map fun img =>
      if ¬ img.dequeued then ReleaseSwapchainImage false (-1) img else (img, [])
    ({ s with active := false, timing := [], images := rel.map Prod.fst },
     (rel.map Prod.snd).flatten)
  else (s, [])

/-- Oracle for one `AcquireNextImageKHR` call: the window's
`dequeueBuffer` outcome (error code, or buffer id and fence fd), the
`dup` outcome for the fence (none = dup failed), and the driver's
`AcquireImageANDROID` result. -/
structure AcquireEnv where
  dequeue : Except Int (Nat × Int)
  dupFence : Option Int
  acquireResult : VkResult
deriving Repr

/-- Outcome of one `AcquireNextImageKHR` call. -/
structure AcquireOutcome where
  result : VkResult
  state : SwapchainState
  imageIndex : Option Nat
  events : List Ev
deriving Repr

/-- `AcquireNextImageKHR` (swapchain.cpp lines 1016-1086).  A non-active
swapchain returns out-of-date before any window call.  Otherwise dequeue a
buffer (failure: initialization-failed, nothing touched); find the slot
whose buffer matches, marking it dequeued with the returned fence (no
match: cancel the buffer back, out-of-date); duplicate the fence (failed
dup: block on the original); on driver acquire failure cancel the buffer
back with the original fence and clear the slot. -/
def AcquireNextImageKHR (s : SwapchainState) (env : AcquireEnv) :
    AcquireOutcome :=
  if ¬ s.active then ⟨VkResult.ERROR_OUT_OF_DATE_KHR, s, none, []⟩
  else
    match env.dequeue with
    | Except.error _ =>
      ⟨VkResult.ERROR_INITIALIZATION_FAILED, s, none, [Ev.dequeueBufferCall]⟩
    | Except.ok (buf, fence_fd) =>
      match s.images.findIdx? (fun img => img.buffer = some buf) with
      | none =>
        ⟨VkResult.ERROR_OUT_OF_DATE_KHR, s, none,
         [Ev.dequeueBufferCall, Ev.cancelBuffer buf fence_fd]⟩
      | some idx =>
        let img0 := s.images.getD idx default
        let images1 := s.images.set idx
          { img0 with dequeued := true, dequeue_fence := fence_fd }
        let dupEvs := if fence_fd ≠ -1 ∧ env.dupFence = none
          then [Ev.syncWait fence_fd] else []
        if env.acquireResult ≠ VkResult.SUCCESS then
          let images2 := images1.set idx
            { img0 with dequeued := false, dequeue_fence := -1 }
          ⟨env.acquireResult, { s with images := images2 }, none,
           [Ev.dequeueBufferCall] ++ dupEvs ++ [Ev.cancelBuffer buf fence_fd]⟩
        else
          ⟨VkResult.SUCCESS, { s with images := images1 }, some idx,
           [Ev.dequeueBufferCall] ++ dupEvs⟩

/-- `WorstPresentResult` (swapchain.cpp lines 1088-1106): scan the
worst-to-best ranking for the first value equal to either argument;
otherwise prefer a non-success argument. -/
def WorstPresentResult (a b : VkResult) : VkResult :=
  let kWorstToBest := [VkResult.ERROR_DEVICE_LOST,
    VkResult.ERROR_SURFACE_LOST_KHR, VkResult.ERROR_OUT_OF_DATE_KHR,
    VkResult.ERROR_OUT_OF_DEVICE_MEMORY, VkResult.ERROR_OUT_OF_HOST_MEMORY,
    VkResult.SUBOPTIMAL_KHR]
  match kWorstToBest.find? (fun r => a = r ∨ b = r) with
  | some r => r
  | none => if a ≠ VkResult.SUCCESS then a else b

/-- The ranked result set of the worst-result merge (spec §4.4 step 7). -/
def presentResultSet : List VkResult :=
  [VkResult.ERROR_DEVICE_LOST, VkResult.ERROR_SURFACE_LOST_KHR,
   VkResult.ERROR_OUT_OF_DATE_KHR, VkResult.ERROR_OUT_OF_DEVICE_MEMORY,
   VkResult.ERROR_OUT_OF_HOST_MEMORY, VkResult.SUBOPTIMAL_KHR,
   VkResult.SUCCESS]

/-- Priority of a result under the worst-result ranking (higher = worse). -/
def presentResultRank (r : VkResult) : Nat :=
  match r with
  | VkResult.ERROR_DEVICE_LOST => 6
  | VkResult.ERROR_SURFACE_LOST_KHR => 5
  | VkResult.ERROR_OUT_OF_DATE_KHR => 4
  | VkResult.ERROR_OUT_OF_DEVICE_MEMORY => 3
  | VkResult.ERROR_OUT_OF_HOST_MEMORY => 2
  | VkResult.SUBOPTIMAL_KHR => 1
  | _ => 0

/-- The `VkPresentTimeGOOGLE` element for one swapchain in a present call. -/
structure PresentTime where
  presentID : Nat
  desiredPresentTime : Nat
deriving DecidableEq, Repr

/-- Oracle for one per-swapchain iteration of `QueuePresentKHR`: the
driver's `QueueSignalReleaseImageANDROID` result and the fence it emitted
(−1 when it emitted none), and the window's `queueBuffer` error code. -/
structure PresentEnv where
  releaseResult : VkResult
  releaseFence : Int
  queueBufferErr : Int
deriving Repr

/-- Outcome of one per-swapchain iteration of `QueuePresentKHR`. -/
structure PresentOutcome where
  swapchainResult : VkResult
  state : SwapchainState
  events : List Ev
deriving Repr

/-- One per-swapchain iteration of `QueuePresentKHR` (swapchain.cpp lines
1155-1275), for the slot at `imageIdx` and optional present-time hint
`time`.  The damage-region arm is omitted: it only emits a
`set_surface_damage` window call from caller scratch memory and touches no
state modelled here.  Flow: ask the driver for a release fence; if the
swapchain is still active and the driver succeeded, run the timing arm
(lazily enable frame timestamps, enroll the record, trim the store, set the
buffer timestamp when the desired time is non-zero), queue the buffer with
the release fence (failure merges out-of-date), close the slot's dequeue
fence and clear `dequeued`; on any per-swapchain error release the slot
(live window, release fence) and orphan the swapchain.  A non-active
swapchain releases the slot with no window, passing the driver's release
fence, and records out-of-date. -/
def QueuePresentIteration (s : SwapchainState) (imageIdx : Nat)
    (time : Option PresentTime) (env : PresentEnv) : PresentOutcome :=
  let img := s.images.getD imageIdx default
  let fence := env.releaseFence
  let r0 := env.releaseResult
  if s.active then
    if r0 = VkResult.SUCCESS then
      let timingStep :=
        match time with
        | none => (s.frame_timestamps_enabled, s.timing, ([] : List Ev))
        | some t =>
          let enableEvs := if ¬ s.frame_timestamps_enabled
            then [Ev.enableFrameTimestamps true true] else []
          let store1 := enrollTiming
            (TimingInfo.fresh t.presentID t.desiredPresentTime) s.timing
          let tsEvs := if t.desiredPresentTime ≠ 0
            then [Ev.setBuffersTimestamp t.desiredPresentTime] else []
          (true, store1, enableEvs ++ tsEvs)
      let queueEvs := [Ev.queueBuffer (img.buffer.getD 0) fence]
      let r1 := if env.queueBufferErr ≠ 0
        then WorstPresentResult r0 VkResult.ERROR_OUT_OF_DATE_KHR else r0
      let closeEvs := if img.dequeue_fence ≥ 0
        then [Ev.closeFd img.dequeue_fence] else []
      let img1 := { img with dequeue_fence := -1, dequeued := false }
      let s1 :=
        { s with frame_timestamps_enabled := timingStep.1,
                 timing := timingStep.2.1,
                 images := s.images.set imageIdx img1 }
      if r1 ≠ VkResult.SUCCESS then
        let rel := ReleaseSwapchainImage true fence img1
        let s2 := { s1 with images := s1.images.set imageIdx rel.1 }
        let orph := OrphanSwapchain s2
        ⟨r1, orph.1,
         timingStep.2.2 ++ queueEvs ++ closeEvs ++ rel.2 ++ orph.2⟩
      else ⟨VkResult.SUCCESS, s1, timingStep.2.2 ++ queueEvs ++ closeEvs⟩
    else
      let rel := ReleaseSwapchainImage true fence img
      let s2 := { s with images := s.images.set imageIdx rel.1 }
      let orph := OrphanSwapchain s2
      ⟨r0, orph.1, rel.2 ++ orph.2⟩
  else
    let rel := ReleaseSwapchainImage false fence img
    ⟨VkResult.ERROR_OUT_OF_DATE_KHR,
     { s with images := s.images.set imageIdx rel.1 }, rel.2⟩

/-- `DestroySwapchainKHR` (swapchain.cpp lines 965-987): the window pointer
is the surface's window only while this swapchain is still active, null
otherwise; if frame timestamps are enabled the disable call is issued
against that (possibly null) pointer; every slot is released with no fence;
the allocation is freed. -/
def DestroySwapchainKHR (s : SwapchainState) : List Ev :=
  let windowLive := s.active
  let ftsEvs := if s.frame_timestamps_enabled
    then [Ev.enableFrameTimestamps windowLive false] else []
  let rel := s.images.map (ReleaseSwapchainImage windowLive (-1))
  ftsEvs ++ (rel.map Prod.snd).flatten ++ [Ev.freeSwapchain]

/-! ## `CreateSwapchainKHR` (swapchain.cpp lines 589-963) -/

/-- Present modes distinguished by the create path. -/
inductive PresentMode where
  | MAILBOX
  | FIFO
  | FRONT_BUFFERED_DEMAND_REFRESH
  | FRONT_BUFFERED_CONTINUOUS_REFRESH
deriving DecidableEq, Repr

/-- The create-info fields `CreateSwapchainKHR`'s control flow branches on.
(Format, extent, pre-transform and the image-create chain only parameterize
window-configuration and driver calls whose outcomes the oracle supplies
directly.) -/
structure CreateInfo where
  minImageCount : Nat
  presentMode : PresentMode
  oldSwapchain : Option Nat
deriving Repr

/-- Oracle for the native-window calls of one `CreateSwapchainKHR`
execution: the error code each configuration call returns (0 = success), in
source order, plus the `MIN_UNDEQUEUED_BUFFERS` query and the per-slot
`dequeueBuffer` outcomes (buffer id and dequeue-fence fd). -/
structure CreateWindowEnv where
  setBufferCount0Err : Int
  setSwapInterval1Err : Int
  setSharedBufferModeOffErr : Int
  setAutoRefreshOffErr : Int
  setBuffersFormatErr : Int
  setBuffersDataSpaceErr : Int
  setBuffersDimensionsErr : Int
  setBuffersTransformErr : Int
  setScalingModeErr : Int
  minUndequeuedErr : Int
  minUndequeuedValue : Int
  setBufferCountNErr : Int
  setSharedBufferModeOnErr : Int
  setAutoRefreshOnErr : Int
  setUsageErr : Int
  setSwapIntervalFinalErr : Int
  dequeue : Nat → Except Int (Nat × Int)

/-- Oracle for the driver and allocator calls of one `CreateSwapchainKHR`
execution: which gralloc-usage entry points exist and their results,
whether the Swapchain allocation succeeds, and the per-slot `CreateImage`
outcomes (image handle on success). -/
structure CreateDriverEnv where
  grallocUsage2 : Option VkResult
  grallocUsage1 : Option VkResult
  allocOk : Bool
  createImage : Nat → Except VkResult Nat

/-- The window reset and configuration sequence of `CreateSwapchainKHR`
(swapchain.cpp lines 640-854), in source order; the api disconnect and
reconnect only log on failure.  Returns the computed slot count
`num_images = (minImageCount - 1) + min_undequeued` (plus one undequeued
buffer in mailbox mode), or the first failure. -/
def configureWindow (env : CreateWindowEnv) (drv : CreateDriverEnv)
    (info : CreateInfo) : Except VkResult Nat :=
  if env.setBufferCount0Err ≠ 0 then Except.error VkResult.ERROR_INITIALIZATION_FAILED
  else if env.setSwapInterval1Err ≠ 0 then Except.error VkResult.ERROR_INITIALIZATION_FAILED
  else if env.setSharedBufferModeOffErr ≠ 0 then Except.error VkResult.ERROR_INITIALIZATION_FAILED
  else if env.setAutoRefreshOffErr ≠ 0 then Except.error VkResult.ERROR_INITIALIZATION_FAILED
  else if env.setBuffersFormatErr ≠ 0 then Except.error VkResult.ERROR_INITIALIZATION_FAILED
  else if env.setBuffersDataSpaceErr ≠ 0 then Except.error VkResult.ERROR_INITIALIZATION_FAILED
  else if env.setBuffersDimensionsErr ≠ 0 then Except.error VkResult.ERROR_INITIALIZATION_FAILED
  else if env.setBuffersTransformErr ≠ 0 then Except.error VkResult.ERROR_INITIALIZATION_FAILED
  else if env.setScalingModeErr ≠ 0 then Except.error VkResult.ERROR_INITIALIZATION_FAILED
  else if env.minUndequeuedErr ≠ 0 ∨ env.minUndequeuedValue < 0 then
    Except.error VkResult.ERROR_INITIALIZATION_FAILED
  else
    let minUndequeued := env.minUndequeuedValue.toNat +
      (if info.presentMode = PresentMode.MAILBOX then 1 else 0)
    let numImages := (info.minImageCount - 1) + minUndequeued
    if env.setBufferCountNErr ≠ 0 then Except.error VkResult.ERROR_INITIALIZATION_FAILED
    else if (info.presentMode = PresentMode.FRONT_BUFFERED_DEMAND_REFRESH ∨
             info.presentMode = PresentMode.FRONT_BUFFERED_CONTINUOUS_REFRESH) ∧
            env.setSharedBufferModeOnErr ≠ 0 then
      Except.error VkResult.ERROR_INITIALIZATION_FAILED
    else if info.presentMode = PresentMode.FRONT_BUFFERED_CONTINUOUS_REFRESH ∧
            env.setAutoRefreshOnErr ≠ 0 then
      Except.error VkResult.ERROR_INITIALIZATION_FAILED
    else
      let grallocFailed : Bool :=
        match drv.grallocUsage2 with
        | some r => r != VkResult.SUCCESS
        | none =>
          match drv.grallocUsage1 with
          | some r => r != VkResult.SUCCESS
          | none => false
      if grallocFailed then Except.error VkResult.ERROR_INITIALIZATION_FAILED
      else if env.setUsageErr ≠ 0 then Except.error VkResult.ERROR_INITIALIZATION_FAILED
      else if env.setSwapIntervalFinalErr ≠ 0 then Except.error VkResult.ERROR_INITIALIZATION_FAILED
      else Except.ok numImages

/-- The dequeue-and-create-image loop of `CreateSwapchainKHR` (swapchain.cpp
lines 901-932), for slots `start, start+1, …` while `n` slots remain:
dequeue a buffer (failure: stop with initialization-failed), record it and
its fence in the slot and mark the slot dequeued, then ask the driver for
an image (failure: stop with the driver's result).  Returns the slots
touched, in order, and the loop's result. -/
def populateSlots (dequeue : Nat → Except Int (Nat × Int))
    (createImage : Nat → Except VkResult Nat) :
    Nat → Nat → List Image × VkResult
  | _, 0 => ([], VkResult.SUCCESS)
  | start, n + 1 =>
    match dequeue start with
    | Except.error _ => ([], VkResult.ERROR_INITIALIZATION_FAILED)
    | Except.ok (buf, fence) =>
      match createImage start with
      | Except.error r =>
        ([{ image := none, buffer := some buf, dequeue_fence := fence,
            dequeued := true }], r)
      | Except.ok im =>
        let rest := populateSlots dequeue createImage (start + 1) n
        ({ image := some im, buffer := some buf, dequeue_fence := fence,
           dequeued := true } :: rest.1, rest.2)

/-- One iteration of the cancel-all-buffers loop of `CreateSwapchainKHR`
(swapchain.cpp lines 940-952): a dequeued slot is cancelled back to the
window carrying its dequeue fence and cleared; on failure any created
image is also destroyed. -/
def cleanupSlot (result : VkResult) (s : Image) : Image × List Ev :=
  let step1 :=
    if s.dequeued then
      ({ s with dequeue_fence := -1, dequeued := false },
       [Ev.cancelBuffer (s.buffer.getD 0) s.dequeue_fence])
    else (s, ([] : List Ev))
  let destroyEvs :=
    if result ≠ VkResult.SUCCESS then
      match s.image with
      | some im => [Ev.destroyImage im]
      | none => []
    else []
  (step1.1, step1.2 ++ destroyEvs)

/-- The full cancel-all-buffers loop over every slot. -/
def cleanupSlots (result : VkResult) (slots : List Image) :
    List Image × List Ev :=
  ((slots.map (cleanupSlot result)).map Prod.fst,
   ((slots.map (cleanupSlot result)).map Prod.snd).flatten)

/-- The surface's active-swapchain handle immediately after the
`oldSwapchain` consistency check and orphan step of `CreateSwapchainKHR`
(swapchain.cpp lines 628-638), given its value `h0` on entry: the check
rejects a mismatched `oldSwapchain` without touching the handle; a
non-null `oldSwapchain` (which then equals `h0`) is orphaned, clearing the
handle. -/
def postOrphanHandle (info : CreateInfo) (h0 : Option Nat) : Option Nat :=
  if h0 ≠ info.oldSwapchain then h0
  else if info.oldSwapchain.isSome then none
  else h0

/-- Outcome of one `CreateSwapchainKHR` execution.  `populatedSlots` is the
image-slot array as the dequeue loop left it (the state the cancel loop
reads); `slots` is the array at return; `allocated` records whether the
Swapchain allocation succeeded. -/
structure CreateOutcome where
  result : VkResult
  surfaceSwapchainHandle : Option Nat
  populatedSlots : List Image
  slots : List Image
  events : List Ev
  allocated : Bool

/-- `CreateSwapchainKHR` (swapchain.cpp lines 589-963), for a surface whose
active-swapchain handle is `h0` and a fresh handle `newHandle` for the new
swapchain.  Flow: reject a create-info whose `oldSwapchain` differs from
`h0` with native-window-in-use; orphan a non-null `oldSwapchain`; reset and
configure the window (any failure: initialization-failed, nothing else
touched); allocate the Swapchain (failure: out-of-host-memory); dequeue all
buffers and create an image for each; cancel every dequeued buffer back
(passing its fence); on failure also destroy every created image, free the
Swapchain and return the failure; on success record the new handle in the
surface.  The orphaned old swapchain's own slot teardown happens inside
`OrphanSwapchain` on that swapchain's state and is not part of this
outcome. -/
def CreateSwapchainKHR (env : CreateWindowEnv) (drv : CreateDriverEnv)
    (info : CreateInfo) (h0 : Option Nat) (newHandle : Nat) : CreateOutcome :=
  if h0 ≠ info.oldSwapchain then
    { result := VkResult.ERROR_NATIVE_WINDOW_IN_USE_KHR,
      surfaceSwapchainHandle := h0, populatedSlots := [], slots := [],
      events := [], allocated := false }
  else
    let hOrphan := if info.oldSwapchain.isSome then none else h0
    match configureWindow env drv info with
    | Except.error r =>
      { result := r, surfaceSwapchainHandle := hOrphan, populatedSlots := [],
        slots := [], events := [], allocated := false }
    | Except.ok numImages =>
      if ¬ drv.allocOk then
        { result := VkResult.ERROR_OUT_OF_HOST_MEMORY,
          surfaceSwapchainHandle := hOrphan, populatedSlots := [],
          slots := [], events := [], allocated := false }
      else
        let pop := populateSlots env.dequeue drv.createImage 0 numImages
        let padded := pop.1 ++ List.replicate (numImages - pop.1.length) {}
        let cleaned := cleanupSlots pop.2 padded
        if pop.2 ≠ VkResult.SUCCESS then
          { result := pop.2, surfaceSwapchainHandle := hOrphan,
            populatedSlots := padded, slots := cleaned.1,
            events := cleaned.2 ++ [Ev.freeSwapchain], allocated := true }
        else
          { result := VkResult.SUCCESS,
            surfaceSwapchainHandle := some newHandle,
            populatedSlots := padded, slots := cleaned.1,
            events := cleaned.2, allocated := true }

/-! ## Invariants and concrete records -/

/-- The timing-store invariant of spec §4.2: at most `MAX_TIMING_INFOS`
records, strictly increasing in `presentID`. -/
def TimingStoreWF (store : List TimingInfo) : Prop :=
  store.length ≤ MAX_TIMING_INFOS ∧
  store.Pairwise (fun a b => a.vals.presentID < b.vals.presentID)

/-- The image-slot invariant of spec §3: a valid dequeue fence implies the
slot is marked dequeued. -/
def ImageWF (img : Image) : Prop := img.dequeue_fence ≥ 0 → img.dequeued = true

/-- A timing record no timestamps have arrived for (not ready). -/
def notReadyRec (p : Nat) : TimingInfo := TimingInfo.fresh p 0

/-- A ready timing record (all four raw timestamps set to 1). -/
def readyRec (p : Nat) : TimingInfo :=
  { TimingInfo.fresh p 1 with
      timestamp_desired_present_time := 1,
      timestamp_actual_present_time := 1,
      timestamp_render_complete_time := 1,
      timestamp_composition_latch_time := 1 }

/-- A ready timing record on which `calculate` wraps: the actual present
time (5) is smaller than the refresh duration, while the latch-minus-render
margin (100) lets the loop run. -/
def wrapRec : TimingInfo :=
  { TimingInfo.fresh 1 1 with
      timestamp_desired_present_time := 1,
      timestamp_actual_present_time := 5,
      timestamp_render_complete_time := 1,
      timestamp_composition_latch_time := 101 }

/-- A wrap-free ready record: render complete at 50, composition latch at
90, actual present at 100. -/
def readyCalcRec : TimingInfo :=
  { TimingInfo.fresh 2 1 with
      timestamp_desired_present_time := 1,
      timestamp_actual_present_time := 100,
      timestamp_render_complete_time := 50,
      timestamp_composition_latch_time := 90 }

/-- A concrete create-call window oracle: every configuration call
succeeds, one undequeued buffer is required, and each dequeue yields
buffer 7 with fence 3. -/
def sampleWindowEnv : CreateWindowEnv :=
  { setBufferCount0Err := 0, setSwapInterval1Err := 0,
    setSharedBufferModeOffErr := 0, setAutoRefreshOffErr := 0,
    setBuffersFormatErr := 0, setBuffersDataSpaceErr := 0,
    setBuffersDimensionsErr := 0, setBuffersTransformErr := 0,
    setScalingModeErr := 0, minUndequeuedErr := 0, minUndequeuedValue := 1,
    setBufferCountNErr := 0, setSharedBufferModeOnErr := 0,
    setAutoRefreshOnErr := 0, setUsageErr := 0, setSwapIntervalFinalErr := 0,
    dequeue := fun _ => Except.ok (7, 3) }

/-- A concrete driver oracle whose image creation fails with
out-of-device-memory. -/
def failingDriverEnv : CreateDriverEnv :=
  { grallocUsage2 := none, grallocUsage1 := none, allocOk := true,
    createImage := fun _ => Except.error VkResult.ERROR_OUT_OF_DEVICE_MEMORY }

/-- A concrete create-info: one requested image, FIFO, no old swapchain. -/
def sampleCreateInfo : CreateInfo :=
  { minImageCount := 1, presentMode := PresentMode.FIFO, oldSwapchain := none }

/-! ## Theorems -/

/-- C6: on the ranked result set the worst-result merge is commutative and
associative, and returns the higher-priority argument under the ranking
DEVICE_LOST > SURFACE_LOST > OUT_OF_DATE > OUT_OF_DEVICE_MEMORY >
OUT_OF_HOST_MEMORY > SUBOPTIMAL > SUCCESS. -/
theorem worstPresentResult_comm_assoc_max (a b c : VkResult)
    (ha : a ∈ presentResultSet) (hb : b ∈ presentResultSet)
    (hc : c ∈ presentResultSet) :
    WorstPresentResult a b = WorstPresentResult b a ∧
    WorstPresentResult (WorstPresentResult a b) c =
      WorstPresentResult a (WorstPresentResult b c) ∧
    WorstPresentResult a b =
      (if presentResultRank b ≤ presentResultRank a then a else b) := by
  revert ha hb hc
  revert a b c
  decide

/-- Witness for C6 at a concrete triple of ranked results. -/
theorem worstPresentResult_comm_assoc_max_witness :
    WorstPresentResult VkResult.ERROR_OUT_OF_DATE_KHR VkResult.SUBOPTIMAL_KHR =
      WorstPresentResult VkResult.SUBOPTIMAL_KHR VkResult.ERROR_OUT_OF_DATE_KHR ∧
    WorstPresentResult
        (WorstPresentResult VkResult.ERROR_OUT_OF_DATE_KHR VkResult.SUBOPTIMAL_KHR)
        VkResult.SUCCESS =
      WorstPresentResult VkResult.ERROR_OUT_OF_DATE_KHR
        (WorstPresentResult VkResult.SUBOPTIMAL_KHR VkResult.SUCCESS) ∧
    WorstPresentResult VkResult.ERROR_OUT_OF_DATE_KHR VkResult.SUBOPTIMAL_KHR =
      (if presentResultRank VkResult.SUBOPTIMAL_KHR ≤
          presentResultRank VkResult.ERROR_OUT_OF_DATE_KHR then
        VkResult.ERROR_OUT_OF_DATE_KHR else VkResult.SUBOPTIMAL_KHR) :=
  worstPresentResult_comm_assoc_max VkResult.ERROR_OUT_OF_DATE_KHR
    VkResult.SUBOPTIMAL_KHR VkResult.SUCCESS (by decide) (by decide) (by decide)

/-- C7: the transform codec's round-trip law: on every supported rotation
the inverse-native value follows the table rot90 ↦ ROT_270, rot180 ↦
ROT_180, rot270 ↦ ROT_90, identity/inherit ↦ 0, and composing the two
rotations yields the identity rotation; `native_to_api` maps 0, ROT_180,
ROT_90, ROT_270 to the identically-named flags and every other native
value (including INVERSE_DISPLAY) to identity. -/
theorem transform_codec_roundtrip :
    (∀ t ∈ supportedTransforms,
      (vkTransformDegrees t +
        nativeTransformDegrees (InvertTransformToNative t)) % 360 = 0) ∧
    InvertTransformToNative VkSurfaceTransform.ROTATE_90 =
      NATIVE_WINDOW_TRANSFORM_ROT_270 ∧
    InvertTransformToNative VkSurfaceTransform.ROTATE_180 =
      NATIVE_WINDOW_TRANSFORM_ROT_180 ∧
    InvertTransformToNative VkSurfaceTransform.ROTATE_270 =
      NATIVE_WINDOW_TRANSFORM_ROT_90 ∧
    InvertTransformToNative VkSurfaceTransform.IDENTITY = 0 ∧
    InvertTransformToNative VkSurfaceTransform.INHERIT = 0 ∧
    TranslateNativeToVulkanTransform 0 = VkSurfaceTransform.IDENTITY ∧
    TranslateNativeToVulkanTransform NATIVE_WINDOW_TRANSFORM_ROT_180 =
      VkSurfaceTransform.ROTATE_180 ∧
    TranslateNativeToVulkanTransform NATIVE_WINDOW_TRANSFORM_ROT_90 =
      VkSurfaceTransform.ROTATE_90 ∧
    TranslateNativeToVulkanTransform NATIVE_WINDOW_TRANSFORM_ROT_270 =
      VkSurfaceTransform.ROTATE_270 ∧
    (∀ n : Int, n ≠ 0 → n ≠ NATIVE_WINDOW_TRANSFORM_ROT_180 →
      n ≠ NATIVE_WINDOW_TRANSFORM_ROT_90 → n ≠ NATIVE_WINDOW_TRANSFORM_ROT_270 →
      TranslateNativeToVulkanTransform n = VkSurfaceTransform.IDENTITY) := by
  refine ⟨by decide, by decide, by decide, by decide, by decide, by decide,
    by decide, by decide, by decide, by decide, ?_⟩
  intro n h0 h180 h90 h270
  simp [TranslateNativeToVulkanTransform, h0, h180, h90, h270]

/-- Witness for C7: the round-trip at rot90 and the default case at the
INVERSE_DISPLAY native value. -/
theorem transform_codec_roundtrip_witness :
    (vkTransformDegrees VkSurfaceTransform.ROTATE_90 +
      nativeTransformDegrees
        (InvertTransformToNative VkSurfaceTransform.ROTATE_90)) % 360 = 0 ∧
    TranslateNativeToVulkanTransform NATIVE_WINDOW_TRANSFORM_INVERSE_DISPLAY =
      VkSurfaceTransform.IDENTITY :=
  ⟨transform_codec_roundtrip.1 VkSurfaceTransform.ROTATE_90 (by decide),
   transform_codec_roundtrip.2.2.2.2.2.2.2.2.2.2
     NATIVE_WINDOW_TRANSFORM_INVERSE_DISPLAY (by decide) (by decide)
     (by decide) (by decide)⟩

/-- C9 (code exhibit): destroying a swapchain that is no longer its
surface's active one while its frame timestamps are enabled issues the
frame-timestamps disable call against the null window (`windowLive =
false`), contradicting the claim that no frame-timestamp call reaches the
null window handle. -/
theorem destroy_fts_call_on_null_window :
    Ev.enableFrameTimestamps false false ∈
      DestroySwapchainKHR ⟨false, true, [], []⟩ := by decide

/-- C10: when the swapchain is still active and the window's
`dequeueBuffer` itself fails, acquire returns initialization-failed (which
is distinct from out-of-date) and the swapchain state — in particular every
slot's `dequeued` flag and dequeue fence — is untouched. -/
theorem acquire_dequeue_failure (s : SwapchainState) (env : AcquireEnv)
    (e : Int) (hact : s.active = true) (hdq : env.dequeue = Except.error e) :
    (AcquireNextImageKHR s env).result = VkResult.ERROR_INITIALIZATION_FAILED ∧
    VkResult.ERROR_INITIALIZATION_FAILED ≠ VkResult.ERROR_OUT_OF_DATE_KHR ∧
    (AcquireNextImageKHR s env).state = s := by
  simp [AcquireNextImageKHR, hact, hdq]

/-- Witness for C10: a concrete active swapchain whose dequeue fails. -/
theorem acquire_dequeue_failure_witness :
    (AcquireNextImageKHR ⟨true, false, [], [{}]⟩
        ⟨Except.error (-22), none, VkResult.SUCCESS⟩).result =
      VkResult.ERROR_INITIALIZATION_FAILED ∧
    VkResult.ERROR_INITIALIZATION_FAILED ≠ VkResult.ERROR_OUT_OF_DATE_KHR ∧
    (AcquireNextImageKHR ⟨true, false, [], [{}]⟩
        ⟨Except.error (-22), none, VkResult.SUCCESS⟩).state =
      ⟨true, false, [], [{}]⟩ :=
  acquire_dequeue_failure ⟨true, false, [], [{}]⟩
    ⟨Except.error (-22), none, VkResult.SUCCESS⟩ (-22) rfl rfl

/-- Unsigned 64-bit subtraction agrees with truncated subtraction when no
wrap occurs. -/
theorem u64sub_eq_sub (a b : Nat) (hba : b ≤ a) (ha : a < U64) :
    u64sub a b = a - b := by
  unfold u64sub
  have hb : b % U64 = b := Nat.mod_eq_of_lt (lt_of_le_of_lt hba ha)
  rw [hb]
  have h1 : a + U64 - b = (a - b) + U64 := by omega
  rw [h1, Nat.add_mod_right, Nat.mod_eq_of_lt (by omega)]

/-- The calculate loop only lowers `early` when the refresh duration is
bounded by the latch time and by `early` itself (no unsigned wrap). -/
theorem calcLoop_fst_le (rdur latch : Nat) (hrl : rdur ≤ latch) :
    ∀ fuel early margin, rdur ≤ early → early < U64 →
      (calcLoop rdur latch fuel early margin).1 ≤ early := by
  intro fuel
  induction fuel with
  | zero => intro early margin _ _; simp [calcLoop]
  | succ f ih =>
    intro early margin hre he
    rw [calcLoop]
    split
    next hguard =>
      have hsub : u64sub early rdur = early - rdur := u64sub_eq_sub _ _ hre he
      have hlt : latch < early - rdur := by rw [hsub] at hguard; exact hguard.2
      have h1 : rdur ≤ early - rdur := le_of_lt (lt_of_le_of_lt hrl hlt)
      have h2 : early - rdur < U64 := lt_of_le_of_lt (Nat.sub_le _ _) he
      calc (calcLoop rdur latch f (u64sub early rdur) (u64sub margin rdur)).1
          ≤ u64sub early rdur := ih _ _ (hsub ▸ h1) (hsub ▸ h2)
        _ ≤ early := by rw [hsub]; exact Nat.sub_le _ _
    next => exact le_refl early

/-- C3 (amended): provided the refresh period `R` is at most both the
composition-latch timestamp and the actual-present timestamp (so the
unsigned subtractions in the loop cannot wrap) and the timestamps are
64-bit values, `calculate` yields `earliestPresentTime ≤
actualPresentTime`; `presentMargin`, an unsigned quantity, is trivially
non-negative. -/
theorem calculate_monotone (t : TimingInfo) (rdur : Nat)
    (hrl : rdur ≤ t.timestamp_composition_latch_time)
    (hra : rdur ≤ t.timestamp_actual_present_time)
    (_hl : t.timestamp_composition_latch_time < U64)
    (ha : t.timestamp_actual_present_time < U64) :
    (t.calculate rdur).vals.earliestPresentTime ≤
      (t.calculate rdur).vals.actualPresentTime ∧
    0 ≤ (t.calculate rdur).vals.presentMargin := by
  refine ⟨?_, Nat.zero_le _⟩
  unfold TimingInfo.calculate
  simp only
  exact calcLoop_fst_le rdur t.timestamp_composition_latch_time hrl _ _ _
    hra ha

/-- Witness for C3's amended statement at a concrete wrap-free record
(actual 100, latch 90, render 50, refresh period 16). -/
theorem calculate_monotone_witness :
    (16 ≤ (readyCalcRec).timestamp_composition_latch_time ∧
     16 ≤ (readyCalcRec).timestamp_actual_present_time ∧
     (readyCalcRec).timestamp_composition_latch_time < U64 ∧
     (readyCalcRec).timestamp_actual_present_time < U64) ∧
    ((readyCalcRec.calculate 16).vals.earliestPresentTime ≤
      (readyCalcRec.calculate 16).vals.actualPresentTime ∧
     0 ≤ (readyCalcRec.calculate 16).vals.presentMargin) :=
  ⟨⟨by decide, by decide, by decide, by decide⟩,
   calculate_monotone readyCalcRec 16 (by decide) (by decide) (by decide)
     (by decide)⟩

/-- C3 (counterexample): on the ready record `wrapRec` with refresh period
10 the unsigned subtraction wraps and `calculate` returns
`earliestPresentTime = 2^64 − 85 > 5 = actualPresentTime`, refuting the
claim as stated. -/
theorem calculate_wrap_counterexample :
    wrapRec.ready = true ∧
    ¬ ((wrapRec.calculate 10).vals.earliestPresentTime ≤
        (wrapRec.calculate 10).vals.actualPresentTime) := by decide

/-- `ReleaseSwapchainImage` never queues a buffer. -/
theorem queueBuffer_not_mem_release (w : Bool) (rf : Int) (img : Image)
    (b : Nat) (f : Int) :
    Ev.queueBuffer b f ∉ (ReleaseSwapchainImage w rf img).2 := by
  unfold ReleaseSwapchainImage
  cases him : img.image <;> split_ifs <;> simp [him]

/-- C5: on a swapchain that is no longer its surface's active one, acquire
returns out-of-date with no window call at all (in particular before any
dequeue), and one present iteration releases the slot through
`ReleaseSwapchainImage` with no window and the driver's release fence,
records out-of-date as the per-swapchain result, and queues no buffer. -/
theorem orphan_swapchain_out_of_date (s : SwapchainState) (aenv : AcquireEnv)
    (idx : Nat) (time : Option PresentTime) (penv : PresentEnv)
    (h : s.active = false) :
    (AcquireNextImageKHR s aenv).result = VkResult.ERROR_OUT_OF_DATE_KHR ∧
    (AcquireNextImageKHR s aenv).state = s ∧
    (AcquireNextImageKHR s aenv).events = [] ∧
    (QueuePresentIteration s idx time penv).swapchainResult =
      VkResult.ERROR_OUT_OF_DATE_KHR ∧
    (QueuePresentIteration s idx time penv).events =
      (ReleaseSwapchainImage false penv.releaseFence
        (s.images.getD idx default)).2 ∧
    (QueuePresentIteration s idx time penv).state.images =
      s.images.set idx
        (ReleaseSwapchainImage false penv.releaseFence
          (s.images.getD idx default)).1 ∧
    (∀ b f, Ev.queueBuffer b f ∉ (QueuePresentIteration s idx time penv).events) := by
  refine ⟨?_, ?_, ?_, ?_, ?_, ?_, ?_⟩ <;>
    simp [AcquireNextImageKHR, QueuePresentIteration, h,
      queueBuffer_not_mem_release]

/-- Witness for C5: a concrete inactive swapchain holding one dequeued
slot, presented with release fence 9. -/
theorem orphan_swapchain_out_of_date_witness :
    (AcquireNextImageKHR
        ⟨false, false, [], [⟨some 4, some 7, 3, true⟩]⟩
        ⟨Except.ok (7, 5), some 6, VkResult.SUCCESS⟩).result =
      VkResult.ERROR_OUT_OF_DATE_KHR ∧
    (QueuePresentIteration
        ⟨false, false, [], [⟨some 4, some 7, 3, true⟩]⟩
        0 none ⟨VkResult.SUCCESS, 9, 0⟩).swapchainResult =
      VkResult.ERROR_OUT_OF_DATE_KHR :=
  ⟨(orphan_swapchain_out_of_date
      ⟨false, false, [], [⟨some 4, some 7, 3, true⟩]⟩
      ⟨Except.ok (7, 5), some 6, VkResult.SUCCESS⟩
      0 none ⟨VkResult.SUCCESS, 9, 0⟩ rfl).1,
   (orphan_swapchain_out_of_date
      ⟨false, false, [], [⟨some 4, some 7, 3, true⟩]⟩
      ⟨Except.ok (7, 5), some 6, VkResult.SUCCESS⟩
      0 none ⟨VkResult.SUCCESS, 9, 0⟩ rfl).2.2.2.1⟩

/-- Looking up the element just past a prefix. -/
theorem get?_append_cons (r : TimingInfo) :
    ∀ (done l : List TimingInfo), (done ++ r :: l).get? done.length = some r := by
  intro done
  induction done with
  | nil => intro l; rfl
  | cons x xs ih => intro l; simpa using ih l

/-- Erasing the element just past a prefix. -/
theorem eraseIdx_append_cons (r : TimingInfo) :
    ∀ (done l : List TimingInfo),
      (done ++ r :: l).eraseIdx done.length = done ++ l := by
  intro done
  induction done with
  | nil => intro l; rfl
  | cons x xs ih => intro l; simpa using ih l

/-- Loop invariant of `copyLoop`: with a scanned (all-non-ready) prefix
`done`, a scan window `rest` and an out-of-window suffix `back`, and enough
budget (`numCopied + |rest| ≤ limit`), the loop copies exactly the ready
records of `rest` in order and removes them, leaving `done`, the non-ready
records of `rest`, and `back`. -/
theorem copyLoop_spec :
    ∀ (rest done back : List TimingInfo) (fuel limit numCopied : Nat)
      (acc : List PastPresentationTiming),
      (∀ x ∈ done, x.ready = false) →
      rest.length ≤ fuel →
      numCopied + rest.length ≤ limit →
      copyLoop fuel (done ++ rest ++ back) done.length
          (done.length + rest.length) limit numCopied acc =
        (done ++ rest.filter (fun t => !t.ready) ++ back,
         acc ++ (rest.filter (fun t => t.ready)).map TimingInfo.get_values) := by
  intro rest
  induction rest with
  | nil =>
    intro done back fuel limit numCopied acc _ _ _
    cases fuel with
    | zero => simp [copyLoop]
    | succ f => simp [copyLoop]
  | cons r rs ih =>
    intro done back fuel limit numCopied acc hdone hfuel hlim
    cases fuel with
    | zero => simp at hfuel
    | succ f =>
      have hassoc : done ++ (r :: rs) ++ back = done ++ r :: (rs ++ back) := by
        simp
      have hget : (done ++ (r :: rs) ++ back).get? done.length = some r := by
        rw [hassoc]; exact get?_append_cons r done (rs ++ back)
      have herase : (done ++ (r :: rs) ++ back).eraseIdx done.length =
          done ++ (rs ++ back) := by
        rw [hassoc]; exact eraseIdx_append_cons r done (rs ++ back)
      rw [copyLoop]
      have hi : done.length < done.length + (r :: rs).length := by simp
      rw [if_pos hi, hget]
      cases hr : r.ready with
      | true =>
        simp only [if_pos rfl, hr, if_true]
        by_cases hbreak : limit = numCopied + 1
        · have hrs : rs = [] := by
            have : rs.length = 0 := by simp at hlim; omega
            exact List.length_eq_zero.mp this
          subst hrs
          rw [if_pos hbreak, herase]
          simp [List.filter, hr, TimingInfo.get_values]
        · rw [if_neg hbreak, herase]
          have hnum : done.length + (r :: rs).length - 1 =
              done.length + rs.length := by simp
          rw [hnum, ← List.append_assoc]
          have := ih done back f limit (numCopied + 1)
            (acc ++ [r.get_values]) hdone (by simpa using hfuel)
            (by simp at hlim ⊢; omega)
          rw [this]
          simp [List.filter_cons, hr]
      | false =>
        simp only [hr, if_false, Bool.false_eq_true]
        have hdone2 : ∀ x ∈ done ++ [r], x.ready = false := by
          intro x hx
          rcases List.mem_append.mp hx with hx | hx
          · exact hdone x hx
          · simp at hx; subst hx; exact hr
        have harr : done ++ (r :: rs) ++ back = (done ++ [r]) ++ rs ++ back := by
          simp
        have hlen : done.length + (r :: rs).length =
            (done ++ [r]).length + rs.length := by simp; omega
        have hlen2 : done.length + 1 = (done ++ [r]).length := by simp
        rw [harr, hlen, hlen2]
        have := ih (done ++ [r]) back f limit numCopied acc hdone2
          (by simpa using hfuel) (by simp at hlim ⊢; omega)
        rw [this]
        simp [List.filter_cons, hr]

/-- The drain characterization: `copy_ready_timings` scans exactly the
first `min(limit, size)` records, copies and deletes the ready ones among
them, and leaves everything else in order. -/
theorem copy_ready_timings_eq (store : List TimingInfo) (limit : Nat) :
    copy_ready_timings store limit =
      ((store.take (min limit store.length)).filter (fun t => !t.ready) ++
         store.drop (min limit store.length),
       ((store.take (min limit store.length)).filter
           (fun t => t.ready)).map TimingInfo.get_values) := by
  unfold copy_ready_timings
  have hm : (if limit < store.length then limit else store.length) =
      min limit store.length := by
    split_ifs with h
    · exact (Nat.min_eq_left (le_of_lt h)).symm
    · exact (Nat.min_eq_right (le_of_not_lt h)).symm
  rw [hm]
  have hmle : min limit store.length ≤ store.length := Nat.min_le_right _ _
  have hlen : (store.take (min limit store.length)).length =
      min limit store.length := by
    rw [List.length_take]; exact Nat.min_eq_left hmle
  have := copyLoop_spec (store.take (min limit store.length)) []
    (store.drop (min limit store.length)) (min limit store.length) limit 0 []
    (by simp) (by rw [hlen]) (by rw [hlen]; simp [Nat.min_le_left])
  simp only [List.nil_append, List.length_nil, Nat.zero_add, hlen,
    List.take_append_drop] at this
  exact this

/-- C2 (amended): the drain operation copies exactly the ready records
among the first `min(limit, store size)` records, in store order, deleting
each copied record; records outside that scan window — including ready
records preceded by enough non-ready ones — and non-ready records remain in
place, and the number copied is written back.  When the limit is at least
the store size this drains every ready record of the store. -/
theorem copy_ready_timings_scan_window (store : List TimingInfo) (limit : Nat) :
    copy_ready_timings store limit =
      ((store.take (min limit store.length)).filter (fun t => !t.ready) ++
         store.drop (min limit store.length),
       ((store.take (min limit store.length)).filter
           (fun t => t.ready)).map TimingInfo.get_values) ∧
    (store.length ≤ limit →
      copy_ready_timings store limit =
        (store.filter (fun t => !t.ready),
         (store.filter (fun t => t.ready)).map TimingInfo.get_values)) := by
  refine ⟨copy_ready_timings_eq store limit, ?_⟩
  intro hle
  rw [copy_ready_timings_eq store limit]
  have hm : min limit store.length = store.length := Nat.min_eq_right hle
  rw [hm]
  simp

/-- Witness for C2's amended statement on a concrete store with limit
smaller than the store. -/
theorem copy_ready_timings_scan_window_witness :
    (copy_ready_timings [notReadyRec 1, readyRec 2, readyRec 3] 3 =
      (([notReadyRec 1, readyRec 2, readyRec 3].take
          (min 3 [notReadyRec 1, readyRec 2, readyRec 3].length)).filter
            (fun t => !t.ready) ++
        [notReadyRec 1, readyRec 2, readyRec 3].drop
          (min 3 [notReadyRec 1, readyRec 2, readyRec 3].length),
       (([notReadyRec 1, readyRec 2, readyRec 3].take
           (min 3 [notReadyRec 1, readyRec 2, readyRec 3].length)).filter
             (fun t => t.ready)).map TimingInfo.get_values)) ∧
    ([notReadyRec 1, readyRec 2, readyRec 3].length ≤ 3 ∧
      copy_ready_timings [notReadyRec 1, readyRec 2, readyRec 3] 3 =
        ([notReadyRec 1, readyRec 2, readyRec 3].filter (fun t => !t.ready),
         ([notReadyRec 1, readyRec 2, readyRec 3].filter
             (fun t => t.ready)).map TimingInfo.get_values)) :=
  ⟨(copy_ready_timings_scan_window [notReadyRec 1, readyRec 2, readyRec 3] 3).1,
   by decide,
   (copy_ready_timings_scan_window [notReadyRec 1, readyRec 2, readyRec 3] 3).2
     (by decide)⟩

/-- C2 (counterexample): a store holding three ready records behind two
non-ready ones, drained with limit 3 (≥ the number of ready records),
copies only one record — not all three as the claim states. -/
theorem copy_ready_timings_limit_counterexample :
    (([notReadyRec 1, notReadyRec 2, readyRec 3, readyRec 4,
        readyRec 5].filter (fun t => t.ready)).length = 3) ∧
    (copy_ready_timings
        [notReadyRec 1, notReadyRec 2, readyRec 3, readyRec 4, readyRec 5]
        3).2.length = 1 ∧
    ¬ ((copy_ready_timings
        [notReadyRec 1, notReadyRec 2, readyRec 3, readyRec 4, readyRec 5]
        3).2.length = 3) := by decide

/-- Every member of `sortedAdd t l` is `t` or a member of `l`. -/
theorem mem_sortedAdd {t y : TimingInfo} :
    ∀ {l : List TimingInfo}, y ∈ sortedAdd t l → y = t ∨ y ∈ l := by
  intro l
  induction l with
  | nil => simp [sortedAdd]
  | cons x xs ih =>
    simp only [sortedAdd]
    split_ifs with h1 h2
    · intro h
      rcases List.mem_cons.mp h with h | h
      · exact Or.inl h
      · exact Or.inr h
    · intro h
      rcases List.mem_cons.mp h with h | h
      · exact Or.inl h
      · exact Or.inr (List.mem_cons_of_mem x h)
    · intro h
      rcases List.mem_cons.mp h with h | h
      · exact Or.inr (h ▸ List.mem_cons_self x xs)
      · rcases ih h with h | h
        · exact Or.inl h
        · exact Or.inr (List.mem_cons_of_mem x h)

/-- Ordered insert-or-replace preserves strict `presentID` ordering. -/
theorem sortedAdd_pairwise (t : TimingInfo) :
    ∀ l : List TimingInfo,
      l.Pairwise (fun a b => a.vals.presentID < b.vals.presentID) →
      (sortedAdd t l).Pairwise
        (fun a b => a.vals.presentID < b.vals.presentID) := by
  intro l
  induction l with
  | nil => intro _; simp [sortedAdd]
  | cons x xs ih =>
    intro hp
    rw [List.pairwise_cons] at hp
    obtain ⟨hx, hxs⟩ := hp
    simp only [sortedAdd]
    split_ifs with h1 h2
    · refine List.Pairwise.cons ?_ (List.Pairwise.cons hx hxs)
      intro y hy
      rcases List.mem_cons.mp hy with rfl | hy
      · exact h1
      · exact lt_trans h1 (hx y hy)
    · refine List.Pairwise.cons ?_ hxs
      intro y hy
      exact h2 ▸ hx y hy
    · refine List.Pairwise.cons ?_ (ih hxs)
      intro y hy
      rcases mem_sortedAdd hy with rfl | hy
      · exact lt_of_le_of_ne (Nat.le_of_not_lt h1) (fun he => h2 he.symm)
      · exact hx y hy

/-- Ordered insert-or-replace grows the store by at most one record. -/
theorem sortedAdd_length_le (t : TimingInfo) :
    ∀ l : List TimingInfo, (sortedAdd t l).length ≤ l.length + 1 := by
  intro l
  induction l with
  | nil => simp [sortedAdd]
  | cons x xs ih =>
    simp only [sortedAdd]
    split_ifs <;> (simp; try omega)

/-- Enrollment (ordered insert, then drop the oldest on overflow) preserves
the timing-store invariant. -/
theorem enrollTiming_wf (t : TimingInfo) (store : List TimingInfo)
    (h : TimingStoreWF store) : TimingStoreWF (enrollTiming t store) := by
  obtain ⟨hlen, hpw⟩ := h
  have hpw1 := sortedAdd_pairwise t store hpw
  have hlen1 := sortedAdd_length_le t store
  unfold enrollTiming TimingStoreWF
  dsimp only
  split_ifs with hgt
  · refine ⟨?_, List.Pairwise.sublist (List.drop_sublist 1 _) hpw1⟩
    rw [List.length_drop]
    unfold MAX_TIMING_INFOS at *
    omega
  · exact ⟨Nat.le_of_not_lt hgt, hpw1⟩

/-- The drained store is a sublist of the store, so draining preserves the
timing-store invariant. -/
theorem drain_wf (store : List TimingInfo) (limit : Nat)
    (h : TimingStoreWF store) :
    TimingStoreWF (copy_ready_timings store limit).1 := by
  obtain ⟨hlen, hpw⟩ := h
  have heq := copy_ready_timings_eq store limit
  have hsub : (copy_ready_timings store limit).1.Sublist store := by
    rw [heq]
    have h2 := List.Sublist.append
      (List.filter_sublist (l := store.take (min limit store.length))
        (p := fun t => !t.ready))
      (List.Sublist.refl (store.drop (min limit store.length)))
    rw [List.take_append_drop] at h2
    exact h2
  exact ⟨le_trans hsub.length_le hlen, List.Pairwise.sublist hsub hpw⟩

/-- One present iteration preserves the timing-store invariant: the store
is unchanged, enrolled into (with overflow trim), or cleared by the orphan
path. -/
theorem present_timing_wf (s : SwapchainState) (idx : Nat)
    (time : Option PresentTime) (env : PresentEnv)
    (h : TimingStoreWF s.timing) :
    TimingStoreWF ((QueuePresentIteration s idx time env).state.timing) := by
  have hnil : TimingStoreWF [] := ⟨by simp [MAX_TIMING_INFOS], List.Pairwise.nil⟩
  have henroll := fun t1 => enrollTiming_wf t1 s.timing h
  unfold QueuePresentIteration OrphanSwapchain
  cases time with
  | none =>
    by_cases hact : s.active = true <;> simp [hact, h]
    all_goals try split_ifs
    all_goals simp_all
  | some t =>
    by_cases hact : s.active = true <;> simp [hact, h]
    all_goals try split_ifs
    all_goals simp_all

/-- C4: the timing store holds at most `MAX_TIMING_INFOS = 10` records and
is strictly increasing in `presentID`, and this invariant is preserved by
enrollment (ordered insert; on overflow the record at index 0, the oldest,
is dropped), by every per-swapchain present iteration, and by draining. -/
theorem timing_store_invariant :
    (∀ t store, TimingStoreWF store → TimingStoreWF (enrollTiming t store)) ∧
    (∀ s idx time env, TimingStoreWF s.timing →
      TimingStoreWF ((QueuePresentIteration s idx time env).state.timing)) ∧
    (∀ store limit, TimingStoreWF store →
      TimingStoreWF (copy_ready_timings store limit).1) :=
  ⟨enrollTiming_wf, present_timing_wf, drain_wf⟩

/-- Witness for C4: enrolling presentID 7 into the singleton store holding
presentID 3, and a concrete present iteration that enrolls it. -/
theorem timing_store_invariant_witness :
    TimingStoreWF [TimingInfo.fresh 3 0] ∧
    TimingStoreWF (enrollTiming (TimingInfo.fresh 7 0) [TimingInfo.fresh 3 0]) ∧
    TimingStoreWF ((QueuePresentIteration
        ⟨true, true, [TimingInfo.fresh 3 0], [⟨some 4, some 7, 3, true⟩]⟩ 0
        (some ⟨7, 0⟩) ⟨VkResult.SUCCESS, 9, 0⟩).state.timing) :=
  have hwf : TimingStoreWF [TimingInfo.fresh 3 0] := by
    constructor
    · decide
    · simp
  ⟨hwf,
   timing_store_invariant.1 (TimingInfo.fresh 7 0) [TimingInfo.fresh 3 0] hwf,
   timing_store_invariant.2.1
     ⟨true, true, [TimingInfo.fresh 3 0], [⟨some 4, some 7, 3, true⟩]⟩ 0
     (some ⟨7, 0⟩) ⟨VkResult.SUCCESS, 9, 0⟩ hwf⟩

/-- Releasing a slot preserves the slot invariant. -/
theorem release_imageWF (w : Bool) (rf : Int) (img : Image)
    (h : ImageWF img) : ImageWF (ReleaseSwapchainImage w rf img).1 := by
  unfold ReleaseSwapchainImage ImageWF at *
  split_ifs with hdq <;> simp_all

/-- Replacing one slot by an invariant-satisfying slot preserves the
invariant across the slot array. -/
theorem imageWF_set {l : List Image} {img : Image} {idx : Nat}
    (hl : ∀ i ∈ l, ImageWF i) (himg : ImageWF img) :
    ∀ i ∈ l.set idx img, ImageWF i := by
  intro i hi
  rcases List.mem_or_eq_of_mem_set hi with hi | rfl
  · exact hl i hi
  · exact himg

/-- Orphaning preserves the slot invariant across the slot array. -/
theorem orphan_imageWF (s : SwapchainState)
    (hl : ∀ i ∈ s.images, ImageWF i) :
    ∀ i ∈ (OrphanSwapchain s).1.images, ImageWF i := by
  unfold OrphanSwapchain
  split_ifs with hact
  · intro i hi
    simp only [List.map_map, List.mem_map] at hi
    obtain ⟨x, hx, rfl⟩ := hi
    by_cases hdq : x.dequeued = true <;>
      simp only [Function.comp, hdq] <;> split_ifs <;>
        first
          | exact hl x hx
          | exact release_imageWF _ _ _ (hl x hx)
  · exact hl

/-- A default-read slot satisfies the invariant when every slot does. -/
theorem getD_imageWF (l : List Image) (idx : Nat)
    (hl : ∀ i ∈ l, ImageWF i) : ImageWF (l.getD idx default) := by
  by_cases hin : idx < l.length
  · rw [List.getD_eq_getElem l default hin]
    exact hl _ (List.getElem_mem hin)
  · rw [List.getD_eq_default l default (Nat.le_of_not_lt hin)]
    intro hge
    exact absurd hge (by decide)

/-- Acquire preserves the slot invariant across the slot array. -/
theorem acquire_imageWF (s : SwapchainState) (env : AcquireEnv)
    (hl : ∀ i ∈ s.images, ImageWF i) :
    ∀ i ∈ (AcquireNextImageKHR s env).state.images, ImageWF i := by
  by_cases hact : s.active = true
  · unfold AcquireNextImageKHR
    rw [if_neg (by simp [hact])]
    split
    · exact hl
    · split
      · exact hl
      · dsimp only
        split_ifs <;>
          first
            | exact imageWF_set (imageWF_set hl (fun _ => rfl))
                (by unfold ImageWF; dsimp only; decide)
            | exact imageWF_set hl (fun _ => rfl)
  · unfold AcquireNextImageKHR
    rw [if_pos (by simp [hact])]
    exact hl

/-- One present iteration preserves the slot invariant across the slot
array. -/
theorem present_imageWF (s : SwapchainState) (idx : Nat)
    (time : Option PresentTime) (env : PresentEnv)
    (hl : ∀ i ∈ s.images, ImageWF i) :
    ∀ i ∈ (QueuePresentIteration s idx time env).state.images, ImageWF i := by
  have hd : ImageWF (s.images.getD idx default) := getD_imageWF _ _ hl
  have hclear : ImageWF { s.images.getD idx default with
      dequeue_fence := -1, dequeued := false } := by
    intro hge
    simp at hge
  unfold QueuePresentIteration
  split_ifs <;>
    cases time <;>
      (dsimp only
       try split_ifs) <;>
      first
        | exact orphan_imageWF _ (imageWF_set (imageWF_set hl hclear)
            (release_imageWF _ _ _ hclear))
        | exact imageWF_set hl hclear
        | exact orphan_imageWF _ (imageWF_set hl (release_imageWF _ _ _ hd))
        | exact imageWF_set hl (release_imageWF _ _ _ hd)

/-- Every slot the creation dequeue loop produced is marked dequeued. -/
theorem populate_dequeued (dq : Nat → Except Int (Nat × Int))
    (ci : Nat → Except VkResult Nat) :
    ∀ n start, ∀ img ∈ (populateSlots dq ci start n).1, img.dequeued = true := by
  intro n
  induction n with
  | zero => intro start img hmem; simp [populateSlots] at hmem
  | succ k ih =>
    intro start img hmem
    unfold populateSlots at hmem
    cases hdq : dq start with
    | error e => rw [hdq] at hmem; simp at hmem
    | ok bf =>
      obtain ⟨buf, fence⟩ := bf
      rw [hdq] at hmem
      cases hci : ci start with
      | error r =>
        rw [hci] at hmem
        simp at hmem
        rw [hmem]
      | ok im =>
        rw [hci] at hmem
        rcases List.mem_cons.mp hmem with rfl | hmem
        · rfl
        · exact ih (start + 1) img hmem

/-- Every slot in the array a create execution returns satisfies the slot
invariant (the cancel loop cleared every dequeued slot). -/
theorem create_imageWF (env : CreateWindowEnv) (drv : CreateDriverEnv)
    (info : CreateInfo) (h0 : Option Nat) (nh : Nat) :
    ∀ img ∈ (CreateSwapchainKHR env drv info h0 nh).slots, ImageWF img := by
  have hclean : ∀ (res : VkResult) (slots : List Image),
      (∀ s ∈ slots, s.dequeued = true ∨ s = ({} : Image)) →
      ∀ img ∈ (cleanupSlots res slots).1, ImageWF img := by
    intro res slots hs img hmem
    unfold cleanupSlots at hmem
    simp only [List.map_map, List.mem_map] at hmem
    obtain ⟨x, hx, rfl⟩ := hmem
    rcases hs x hx with hdq | rfl
    · unfold cleanupSlot
      simp only [Function.comp, hdq]
      split_ifs <;> intro hge <;> simp_all
    · unfold cleanupSlot
      simp only [Function.comp]
      split_ifs <;> intro hge <;> simp_all
  have hpadWF : ∀ (n : Nat) (res : VkResult),
      ∀ img ∈ (cleanupSlots res
        ((populateSlots env.dequeue drv.createImage 0 n).1 ++
          List.replicate
            (n - (populateSlots env.dequeue drv.createImage 0 n).1.length)
            ({} : Image))).1, ImageWF img := by
    intro n res
    apply hclean
    intro s hs
    rcases List.mem_append.mp hs with hs | hs
    · exact Or.inl (populate_dequeued env.dequeue drv.createImage n 0 s hs)
    · exact Or.inr (List.eq_of_mem_replicate hs)
  unfold CreateSwapchainKHR
  split_ifs <;> dsimp only <;> intro img hmem
  all_goals try (simp at hmem)
  all_goals
    cases hcw : configureWindow env drv info with
    | error r => rw [hcw] at hmem; simp at hmem
    | ok numImages =>
      rw [hcw] at hmem
      by_cases hpop : (populateSlots env.dequeue drv.createImage 0 numImages).2 =
          VkResult.SUCCESS
      all_goals first
        | exact absurd hmem (List.not_mem_nil img)
        | (simp [hpop] at hmem
           exact hpadWF _ _ img hmem)

/-- C8: at every external observation point a valid dequeue fence implies
the slot is marked dequeued: the invariant holds of every slot array a
create execution returns and is preserved by slot release, by acquire and
by every per-swapchain present iteration (each of which either closes or
transfers the fence, leaving `dequeue_fence = -1`, or marks the slot
dequeued together with storing the fence). -/
theorem dequeue_fence_invariant :
    (∀ w rf img, ImageWF img → ImageWF (ReleaseSwapchainImage w rf img).1) ∧
    (∀ s env, (∀ i ∈ s.images, ImageWF i) →
      ∀ i ∈ (AcquireNextImageKHR s env).state.images, ImageWF i) ∧
    (∀ s idx time env, (∀ i ∈ s.images, ImageWF i) →
      ∀ i ∈ (QueuePresentIteration s idx time env).state.images, ImageWF i) ∧
    (∀ env drv info h0 nh,
      ∀ img ∈ (CreateSwapchainKHR env drv info h0 nh).slots, ImageWF img) :=
  ⟨release_imageWF, acquire_imageWF, present_imageWF, create_imageWF⟩

/-- Witness for C8 on a concrete dequeued slot with fence 3. -/
theorem dequeue_fence_invariant_witness :
    ImageWF (⟨some 4, some 7, 3, true⟩ : Image) ∧
    ImageWF (ReleaseSwapchainImage true 9 ⟨some 4, some 7, 3, true⟩).1 :=
  have hw : ImageWF (⟨some 4, some 7, 3, true⟩ : Image) := fun _ => rfl
  ⟨hw, dequeue_fence_invariant.1 true 9 ⟨some 4, some 7, 3, true⟩ hw⟩

/-- The cancel loop emits a `cancelBuffer` carrying the slot's dequeue
fence for every dequeued slot. -/
theorem cleanup_cancel_mem (res : VkResult) :
    ∀ (slots : List Image), ∀ img ∈ slots, img.dequeued = true →
      Ev.cancelBuffer (img.buffer.getD 0) img.dequeue_fence ∈
        (cleanupSlots res slots).2 := by
  intro slots img hmem hdq
  unfold cleanupSlots
  simp only [List.map_map, List.mem_flatten, List.mem_map, Function.comp]
  refine ⟨(cleanupSlot res img).2, ⟨img, hmem, rfl⟩, ?_⟩
  unfold cleanupSlot
  simp [hdq]

/-- On failure the cancel loop emits a `destroyImage` for every created
image. -/
theorem cleanup_destroy_mem (res : VkResult) (hres : res ≠ VkResult.SUCCESS) :
    ∀ (slots : List Image), ∀ img ∈ slots, ∀ im, img.image = some im →
      Ev.destroyImage im ∈ (cleanupSlots res slots).2 := by
  intro slots img hmem im him
  unfold cleanupSlots
  simp only [List.map_map, List.mem_flatten, List.mem_map, Function.comp]
  refine ⟨(cleanupSlot res img).2, ⟨img, hmem, rfl⟩, ?_⟩
  unfold cleanupSlot
  split_ifs <;> simp [hres, him]

/-- C1: every erroring create execution rolls back completely: the
surface's active-swapchain handle at return equals its value immediately
after the `oldSwapchain` consistency/orphan step, every slot the dequeue
loop marked dequeued is cancelled back to the window with its dequeue
fence, every driver-created image is destroyed, and whenever the Swapchain
allocation succeeded it is freed. -/
theorem create_error_rollback (env : CreateWindowEnv) (drv : CreateDriverEnv)
    (info : CreateInfo) (h0 : Option Nat) (nh : Nat) :
    (CreateSwapchainKHR env drv info h0 nh).result ≠ VkResult.SUCCESS →
      ((CreateSwapchainKHR env drv info h0 nh).surfaceSwapchainHandle =
        postOrphanHandle info h0 ∧
      (∀ img ∈ (CreateSwapchainKHR env drv info h0 nh).populatedSlots,
        img.dequeued = true →
        Ev.cancelBuffer (img.buffer.getD 0) img.dequeue_fence ∈
          (CreateSwapchainKHR env drv info h0 nh).events) ∧
      (∀ img ∈ (CreateSwapchainKHR env drv info h0 nh).populatedSlots,
        ∀ im, img.image = some im →
          Ev.destroyImage im ∈ (CreateSwapchainKHR env drv info h0 nh).events) ∧
      ((CreateSwapchainKHR env drv info h0 nh).allocated = true →
        Ev.freeSwapchain ∈ (CreateSwapchainKHR env drv info h0 nh).events)) := by
  unfold CreateSwapchainKHR
  split_ifs <;> dsimp only
  all_goals
    cases hcw : configureWindow env drv info with
    | error r =>
      try simp only [hcw]
      intro _
      refine ⟨by simp_all [postOrphanHandle], by simp, by simp, by simp⟩
    | ok numImages =>
      try simp only [hcw]
      by_cases hpop :
        (populateSlots env.dequeue drv.createImage 0 numImages).2 =
          VkResult.SUCCESS
      · first
        | (rw [if_neg (not_not_intro hpop)]; intro herr; simp at herr)
        | (intro _
           refine ⟨by simp_all [postOrphanHandle], by simp, by simp, by simp⟩)
      · first
        | (rw [if_pos hpop]
           intro _
           refine ⟨by simp_all [postOrphanHandle], ?_, ?_, by simp⟩
           · intro img hmem hdq
             exact List.mem_append_left _
               (cleanup_cancel_mem _ _ img hmem hdq)
           · intro img hmem im him
             exact List.mem_append_left _
               (cleanup_destroy_mem _ hpop _ img hmem im him))
        | (intro _
           refine ⟨by simp_all [postOrphanHandle], by simp, by simp, by simp⟩)

/-- Witness for C1: a concrete create whose first image creation fails;
the dequeued slot is cancelled back with its fence and the Swapchain is
freed. -/
theorem create_error_rollback_witness :
    ((CreateSwapchainKHR sampleWindowEnv failingDriverEnv sampleCreateInfo
        none 42).result ≠ VkResult.SUCCESS) ∧
    ((CreateSwapchainKHR sampleWindowEnv failingDriverEnv sampleCreateInfo
        none 42).surfaceSwapchainHandle = postOrphanHandle sampleCreateInfo none ∧
      (∀ img ∈ (CreateSwapchainKHR sampleWindowEnv failingDriverEnv
          sampleCreateInfo none 42).populatedSlots,
        img.dequeued = true →
        Ev.cancelBuffer (img.buffer.getD 0) img.dequeue_fence ∈
          (CreateSwapchainKHR sampleWindowEnv failingDriverEnv sampleCreateInfo
            none 42).events) ∧
      (∀ img ∈ (CreateSwapchainKHR sampleWindowEnv failingDriverEnv
          sampleCreateInfo none 42).populatedSlots,
        ∀ im, img.image = some im →
          Ev.destroyImage im ∈ (CreateSwapchainKHR sampleWindowEnv
            failingDriverEnv sampleCreateInfo none 42).events) ∧
      ((CreateSwapchainKHR sampleWindowEnv failingDriverEnv sampleCreateInfo
          none 42).allocated = true →
        Ev.freeSwapchain ∈ (CreateSwapchainKHR sampleWindowEnv failingDriverEnv
          sampleCreateInfo none 42).events)) :=
  ⟨by decide,
   create_error_rollback sampleWindowEnv failingDriverEnv sampleCreateInfo
     none 42 (by decide)⟩

end SwapchainSpec
